import Mathlib

/-!
A verification development for the `harvest.py` HTTP client library
(`python-harvest`).  The Python source is shallowly embedded: pure
helpers become Lean functions, the stateful request pipeline becomes
explicit state passing over a mocked transport (a list of HTTP
responses, one consumed per attempt), and fallible operations return
`Option` or `Except`.
-/

/-- Calendar dates, modelling Python `datetime.date` (year 1..9999). -/
structure Date where
  year : Nat
  month : Nat
  day : Nat
deriving DecidableEq

/-- Gregorian leap-year test, as in Python `calendar.isleap`. -/
def isLeap (y : Nat) : Bool :=
  y % 4 == 0 && (y % 100 != 0 || y % 400 == 0)

/-- Number of days in a month of a given year (months are 1-based). -/
def daysInMonth (y m : Nat) : Nat :=
  match m with
  | 1 => 31
  | 2 => if isLeap y then 29 else 28
  | 3 => 31
  | 4 => 30
  | 5 => 31
  | 6 => 30
  | 7 => 31
  | 8 => 31
  | 9 => 30
  | 10 => 31
  | 11 => 30
  | 12 => 31
  | _ => 0

/-- Validity of a `(year, month, day)` triple as a Python `datetime.date`. -/
def validDate (y m d : Nat) : Bool :=
  1 ≤ y && y ≤ 9999 && 1 ≤ m && m ≤ 12 && 1 ≤ d && d ≤ daysInMonth y m

/-- Fuel-driven digit accumulator behind `natToChars`; the fuel always
dominates the number, so it never runs out. -/
def natToCharsAux : Nat → Nat → List Char → List Char
  | 0, _, acc => acc
  | fuel + 1, n, acc =>
    if n < 10 then Char.ofNat (48 + n) :: acc
    else natToCharsAux fuel (n / 10) (Char.ofNat (48 + n % 10) :: acc)

/-- Decimal digits of a natural number, as produced by Python `str` /
`strftime` without padding (most significant digit first). -/
def natToChars (n : Nat) : List Char :=
  natToCharsAux (n + 1) n []

/-- Read a run of leading decimal digits, accumulating their value;
returns the value together with the unconsumed remainder. -/
def readNatAux : List Char → Nat → Nat × List Char
  | [], acc => (acc, [])
  | c :: cs, acc =>
    if c.isDigit then readNatAux cs (10 * acc + (c.toNat - 48)) else (acc, c :: cs)

/-- Month abbreviations as emitted by C-locale `strftime` `%b`. -/
def monthAbbrChars (m : Nat) : List Char :=
  match m with
  | 1 => ['J', 'a', 'n']
  | 2 => ['F', 'e', 'b']
  | 3 => ['M', 'a', 'r']
  | 4 => ['A', 'p', 'r']
  | 5 => ['M', 'a', 'y']
  | 6 => ['J', 'u', 'n']
  | 7 => ['J', 'u', 'l']
  | 8 => ['A', 'u', 'g']
  | 9 => ['S', 'e', 'p']
  | 10 => ['O', 'c', 't']
  | 11 => ['N', 'o', 'v']
  | 12 => ['D', 'e', 'c']
  | _ => []

/-- Inverse lookup of a month abbreviation, as `dateutil` recognises. -/
def monthOfAbbr (cs : List Char) : Option Nat :=
  match cs with
  | ['J', 'a', 'n'] => some 1
  | ['F', 'e', 'b'] => some 2
  | ['M', 'a', 'r'] => some 3
  | ['A', 'p', 'r'] => some 4
  | ['M', 'a', 'y'] => some 5
  | ['J', 'u', 'n'] => some 6
  | ['J', 'u', 'l'] => some 7
  | ['A', 'u', 'g'] => some 8
  | ['S', 'e', 'p'] => some 9
  | ['O', 'c', 't'] => some 10
  | ['N', 'o', 'v'] => some 11
  | ['D', 'e', 'c'] => some 12
  | _ => Option.none

/-- Sakamoto month offsets for the day-of-week computation. -/
def sakamotoOffset (m : Nat) : Nat :=
  match m with
  | 1 => 0
  | 2 => 3
  | 3 => 2
  | 4 => 5
  | 5 => 0
  | 6 => 3
  | 7 => 5
  | 8 => 1
  | 9 => 4
  | 10 => 6
  | 11 => 2
  | 12 => 4
  | _ => 0

/-- Gregorian day of week (0 = Sunday), Sakamoto's method; matches the
weekday Python `datetime.date` reports to `strftime` `%a`. -/
def weekdayIdx (dt : Date) : Nat :=
  let y := if dt.month < 3 then dt.year - 1 else dt.year
  (y + y / 4 - y / 100 + y / 400 + sakamotoOffset dt.month + dt.day) % 7

/-- Weekday abbreviations as emitted by C-locale `strftime` `%a`
(index 0 = Sunday). -/
def weekdayAbbrChars (i : Nat) : List Char :=
  match i with
  | 0 => ['S', 'u', 'n']
  | 1 => ['M', 'o', 'n']
  | 2 => ['T', 'u', 'e']
  | 3 => ['W', 'e', 'd']
  | 4 => ['T', 'h', 'u']
  | 5 => ['F', 'r', 'i']
  | 6 => ['S', 'a', 't']
  | _ => []

/-- Characters of `date.strftime('%a, %-d %b %Y')`: abbreviated weekday,
comma, space, unpadded day, space, abbreviated month, space, year. -/
def formatDateChars (dt : Date) : List Char :=
  weekdayAbbrChars (weekdayIdx dt) ++
    ',' :: ' ' :: (natToChars dt.day ++
      ' ' :: (monthAbbrChars dt.month ++ ' ' :: natToChars dt.year))

/-- Consume one expected character from the front of the input. -/
def expectChar (c : Char) : List Char → Option (List Char)
  | x :: rest => if x = c then some rest else Option.none
  | [] => Option.none

/-- Read a three-letter month abbreviation from the front of the input. -/
def readMonth : List Char → Option (Nat × List Char)
  | m1 :: m2 :: m3 :: rest => (monthOfAbbr [m1, m2, m3]).map (fun m => (m, rest))
  | _ => Option.none

/-- Models `dateutil.parser.parse(s).date()` on wire-format strings
`<Www>, <d> <Mmm> <yyyy>`: the weekday token before the comma is not used
to determine the date; day, month abbreviation and year determine it,
and an out-of-range combination raises (is `Option.none`). -/
def parseWireChars (cs : List Char) : Option Date :=
  (expectChar ',' (List.dropWhile (fun c => c != ',') cs)).bind fun r1 =>
  (expectChar ' ' r1).bind fun r2 =>
  (fun dr =>
    (expectChar ' ' dr.2).bind fun r3 =>
    (readMonth r3).bind fun mr =>
    (expectChar ' ' mr.2).bind fun r4 =>
    (fun yr =>
      if validDate yr.1 mr.1 dr.1 && List.isEmpty yr.2 then
        some ⟨yr.1, mr.1, dr.1⟩
      else Option.none) (readNatAux r4 0)) (readNatAux r2 0)

/-- Split a list of characters on a separator character. -/
def splitOnChar (sep : Char) : List Char → List (List Char)
  | [] => [[]]
  | c :: cs =>
    let r := splitOnChar sep cs
    if c = sep then [] :: r
    else
      match r with
      | [] => [[c]]
      | t :: ts => (c :: t) :: ts

/-- Parse a nonempty all-digit token as a natural number. -/
def parseNatAll (cs : List Char) : Option Nat :=
  if cs ≠ [] ∧ cs.all Char.isDigit then some (readNatAux cs 0).1 else Option.none

/-- Models `dateutil.parser.parse(s).date()` on ISO strings `yyyy-mm-dd`. -/
def parseIsoChars (cs : List Char) : Option Date :=
  match (splitOnChar '-' cs).map parseNatAll with
  | [some y, some m, some d] =>
    if validDate y m d then some ⟨y, m, d⟩ else Option.none
  | _ => Option.none

/-- Models `dateutil.parser.parse(s).date()` on the two string shapes this
library produces or consumes: the comma-bearing wire format and ISO dates.
`dateutil` is a third-party dependency, not part of this repository; this
embedding captures its documented behaviour on these inputs.  Returns
`Option.none` where `dateutil` raises. -/
def dateutilParse (s : String) : Option Date :=
  if ',' ∈ s.toList then parseWireChars s.toList else parseIsoChars s.toList

/-- JSON values, as returned by `resp.json()`. -/
inductive Json where
  | null
  | bool (b : Bool)
  | num (n : Int)
  | str (s : String)
  | arr (xs : List Json)
  | obj (fields : List (String × Json))

/-- Python values that can appear in a request data mapping or be passed
as a date argument: the cases of `_parse_date`'s dispatch plus the basic
scalars needed for truthiness. -/
inductive PyValue where
  | str (s : String)
  | int (n : Int)
  | bool (b : Bool)
  | pyNone
  | date (d : Date)
  | datetime (d : Date)
deriving DecidableEq

/-- Python truthiness of a `PyValue`, as tested by `if data.get(arg):`. -/
def truthy : PyValue → Bool
  | .str s => s ≠ ""
  | .int n => n ≠ 0
  | .bool b => b
  | .pyNone => false
  | .date _ => true
  | .datetime _ => true

/-- A Python dict of request fields, modelled as an ordered association
list with distinct keys (insertion order preserved, as in Python). -/
abbrev PyDict := List (String × PyValue)

/-- Update of `data[k] = v` on a Python dict: an existing key keeps its
position and gets the new value; a missing key is appended at the end. -/
def setKey (data : PyDict) (k : String) (v : PyValue) : PyDict :=
  if (List.lookup k data).isSome then
    data.map (fun p => if p.1 == k then (k, v) else p)
  else data ++ [(k, v)]

/-- Embedding of `_parse_date`: a `datetime.date` is returned as is (a
`datetime.datetime` also satisfies `isinstance(x, datetime.date)` and is
returned unchanged in the source, but only its date components are ever
consumed downstream, so it is parsed to its date here); a string goes
through `dateutil`; any other type makes `dateutil.parser.parse` raise
`TypeError`, modelled as `Option.none`. -/
def _parse_date : PyValue → Option Date
  | .date d => some d
  | .datetime d => some d
  | .str s => dateutilParse s
  | _ => Option.none

/-- Embedding of `_format_date`: parse the input, then render it with
`date.strftime('%a, %-d %b %Y')`. -/
def _format_date (v : PyValue) : Option String :=
  (_parse_date v).map (fun d => String.mk (formatDateChars d))

/-- Errors raised by the date helpers: `dateutil` raises on an
unparseable string (`InvalidDate` in the specification's taxonomy) and
`TypeError` on a non-string, non-date argument. -/
inductive PyErr where
  | invalidDate
deriving DecidableEq

/-- Embedding of `Harvest._format_dates`: for each named field, if the
mapping holds a truthy value there, overwrite it with its wire-format
date string; mutation is modelled by returning the updated mapping. -/
def _format_dates (data : PyDict) : List String → Except PyErr PyDict
  | [] => .ok data
  | arg :: args =>
    match List.lookup arg data with
    | some v =>
      if truthy v then
        match _format_date v with
        | some s => _format_dates (setKey data arg (.str s)) args
        | Option.none => .error .invalidDate
      else _format_dates data args
    | Option.none => _format_dates data args

/-- One HTTP request as handed to the transport: method, path (query
string included) and optional body mapping. -/
structure RequestDescriptor where
  method : String
  path : String
  body : Option PyDict
deriving DecidableEq

/-- Embedding of `Harvest.get_projects`, which appends each filter with
a leading `?`: `Option.none` when date formatting raises. -/
def get_projects (client_id : Option Int) (updated_since : Option PyValue) :
    Option RequestDescriptor :=
  let url := "/projects"
  match updated_since with
  | Option.none =>
    match client_id with
    | Option.none => some ⟨"GET", url, Option.none⟩
    | some c => some ⟨"GET", url ++ "?client=" ++ toString c, Option.none⟩
  | some v =>
    match _format_date v with
    | Option.none => Option.none
    | some s =>
      let url := url ++ "?updated_since=" ++ s
      match client_id with
      | Option.none => some ⟨"GET", url, Option.none⟩
      | some c => some ⟨"GET", url ++ "?client=" ++ toString c, Option.none⟩

/-- Embedding of `Harvest.get_tasks`; identical to `get_projects` except
for the base path. -/
def get_tasks (client_id : Option Int) (updated_since : Option PyValue) :
    Option RequestDescriptor :=
  let url := "/tasks"
  match updated_since with
  | Option.none =>
    match client_id with
    | Option.none => some ⟨"GET", url, Option.none⟩
    | some c => some ⟨"GET", url ++ "?client=" ++ toString c, Option.none⟩
  | some v =>
    match _format_date v with
    | Option.none => Option.none
    | some s =>
      let url := url ++ "?updated_since=" ++ s
      match client_id with
      | Option.none => some ⟨"GET", url, Option.none⟩
      | some c => some ⟨"GET", url ++ "?client=" ++ toString c, Option.none⟩

/-- Cumulative day count of the year before a given month, mirroring the
table behind `date.timetuple().tm_yday`. -/
def cumDaysBefore (leap : Bool) (m : Nat) : Nat :=
  let base :=
    match m with
    | 1 => 0
    | 2 => 31
    | 3 => 59
    | 4 => 90
    | 5 => 120
    | 6 => 151
    | 7 => 181
    | 8 => 212
    | 9 => 243
    | 10 => 273
    | 11 => 304
    | 12 => 334
    | _ => 0
  if leap && 3 ≤ m then base + 1 else base

/-- Ordinal day of the year (`date.timetuple().tm_yday`), 1-based. -/
def dayOfYear (dt : Date) : Nat :=
  cumDaysBefore (isLeap dt.year) dt.month + dt.day

/-- Embedding of `Harvest.get_day`: parse the date argument, then issue
`GET /daily/<day_of_year>/<year>`. -/
def get_day (date : PyValue) : Option RequestDescriptor :=
  (_parse_date date).map (fun d =>
    ⟨"GET", "/daily/" ++ String.mk (natToChars (dayOfYear d)) ++ "/" ++
      String.mk (natToChars d.year), Option.none⟩)

/-- Embedding of `Harvest.add`: normalize the `spent_at` field of the
caller's mapping in place (the returned mapping is the mutated argument),
then `POST /daily/add` with that same mapping as the body. -/
def Harvest.add (data : PyDict) : Except PyErr (PyDict × RequestDescriptor) :=
  match _format_dates data ["spent_at"] with
  | .ok d2 => .ok (d2, ⟨"POST", "/daily/add", some d2⟩)
  | .error e => .error e

/-- One HTTP response as produced by the mocked transport.  `json`
models what `resp.json()` yields (`Option.none` when the body is not
valid JSON and the call raises); `text` is the raw body; errors carry
the whole record, so status, body and headers travel with them. -/
structure Response where
  status : Nat
  headers : List (String × String)
  json : Option Json
  text : String

/-- Mutable attribute state of a `Harvest` client instance: the
`_retries` attribute is absent on a fresh client (`getattr` supplies the
default 0) and is set by the 503 handler. -/
structure ClientState where
  retries : Option Nat
deriving DecidableEq

/-- ASCII lower-casing of one character, as header names need. -/
def lowerChar (c : Char) : Char :=
  if 65 ≤ c.toNat ∧ c.toNat ≤ 90 then Char.ofNat (c.toNat + 32) else c

/-- ASCII case-insensitive string comparison. -/
def lowerEq (a b : String) : Bool :=
  a.toList.map lowerChar == b.toList.map lowerChar

/-- Case-insensitive header lookup with default, modelling
`resp.headers.get(k, d)` on a `requests` `CaseInsensitiveDict`. -/
def headerGetD (hs : List (String × String)) (k d : String) : String :=
  match hs.find? (fun p => lowerEq p.1 k) with
  | some p => p.2
  | Option.none => d

/-- Models Python `int(s)` on a decimal string: surrounding whitespace
and one optional sign are accepted, anything else raises `ValueError`,
modelled as `Option.none`. -/
def pyIntOfString (s : String) : Option Int :=
  let cs := ((s.toList.dropWhile Char.isWhitespace).reverse.dropWhile
    Char.isWhitespace).reverse
  let signed : Int × List Char :=
    match cs with
    | '-' :: rest => (-1, rest)
    | '+' :: rest => (1, rest)
    | _ => (1, cs)
  if signed.2 ≠ [] ∧ signed.2.all Char.isDigit then
    some (signed.1 * ((readNatAux signed.2 0).1 : Int))
  else Option.none

/-- Substring test, modelling Python's `'DELETE' in method`. -/
def hasInfix (needle : List Char) : List Char → Bool
  | [] => needle.isEmpty
  | c :: rest => needle.isPrefixOf (c :: rest) || hasInfix needle rest

/-- The `'DELETE' not in method` test of `_request`, without the `not`. -/
def methodMentionsDELETE (m : String) : Bool :=
  hasInfix "DELETE".toList m.toList

/-- Result of a successful `_request`: parsed JSON for non-DELETE
methods, the raw response object for DELETE. -/
inductive ReqValue where
  | json (j : Json)
  | raw (r : Response)

/-- Exceptions a `_request` call can propagate.  `httpError` is the
re-raised `requests.HTTPError` after retry exhaustion; `generic`,
`notFound` and `unauthorized` are the library's wrappers; `valueError`
is the uncaught `int()` failure on a bad `Retry-After` header;
`jsonDecodeError` is the uncaught `resp.json()` failure on a success
status; `connectionError` stands for the transport having no response
(the mocked response list ran out). -/
inductive ReqError where
  | connectionError
  | valueError (s : String)
  | jsonDecodeError (r : Response)
  | notFound (r : Response)
  | unauthorized (r : Response)
  | httpError (r : Response)
  | generic (r : Response)

/-- Observable outcome of one logical `_request` call against a mocked
transport: the client state it leaves behind, how many HTTP attempts it
made, the `Retry-After` sleeps it performed (in order), and its result. -/
structure ReqOutcome where
  state : ClientState
  attempts : Nat
  sleeps : List Int
  result : Except ReqError ReqValue

/-- Embedding of `Harvest._request` run against a mocked transport that
serves the given responses one per attempt.  Mirrors the source: issue
the request; on a success status return parsed JSON (raw response for a
method containing `DELETE`); on 503 read `Retry-After` (default `'15'`),
increment the instance's `_retries` attribute, re-raise once it exceeds
5, otherwise sleep and recurse; on 404/401/other errors raise the
taxonomy error carrying the response. -/
def _request (st : ClientState) (method path : String) (body : Option PyDict) :
    List Response → ReqOutcome
  | [] => ⟨st, 0, [], .error .connectionError⟩
  | resp :: rest =>
    if 400 ≤ resp.status ∧ resp.status ≤ 599 then
      if resp.status = 503 then
        match pyIntOfString (headerGetD resp.headers "Retry-After" "15") with
        | Option.none =>
          ⟨st, 1, [], .error (.valueError (headerGetD resp.headers "Retry-After" "15"))⟩
        | some retry_after =>
          let r := st.retries.getD 0 + 1
          if r > 5 then ⟨⟨some r⟩, 1, [], .error (.httpError resp)⟩
          else
            let o := _request ⟨some r⟩ method path body rest
            ⟨o.state, o.attempts + 1, retry_after :: o.sleeps, o.result⟩
      else if resp.status = 404 then ⟨st, 1, [], .error (.notFound resp)⟩
      else if resp.status = 401 then ⟨st, 1, [], .error (.unauthorized resp)⟩
      else ⟨st, 1, [], .error (.generic resp)⟩
    else
      if methodMentionsDELETE method then ⟨st, 1, [], .ok (.raw resp)⟩
      else
        match resp.json with
        | some j => ⟨st, 1, [], .ok (.json j)⟩
        | Option.none => ⟨st, 1, [], .error (.jsonDecodeError resp)⟩

/-- Outcome of the unauthenticated `requests.get` inside `status()`:
either any exception (network failure), or a response whose body may or
may not parse as JSON.  No `raise_for_status` is invoked there, so the
status code itself is irrelevant. -/
inductive GetOutcome where
  | failure
  | response (r : Response)

/-- Empty Python dict, the fallback result of `status()`. -/
def emptyObj : Json := .obj []

/-- Embedding of the module-level `status()` function: return
`requests.get(url).json().get('status', {})`, and on any exception —
network error, JSON decode error, or `.get` on a non-dict — return the
empty dict.  Totality of this function is the `never raises` guarantee. -/
def status (o : GetOutcome) : Json :=
  match o with
  | .failure => emptyObj
  | .response r =>
    match r.json with
    | some (.obj fields) => (List.lookup "status" fields).getD emptyObj
    | _ => emptyObj

/-- Restatement of the specification's description of `status()`: the
`status` field of the parsed JSON object when the request, the JSON
parse and the field lookup all succeed, and an empty result otherwise.
Written from the specification's words, to be compared with `status`. -/
def statusSpec (o : GetOutcome) : Json :=
  match o with
  | .response r =>
    match r.json with
    | some (.obj fields) =>
      match List.lookup "status" fields with
      | some v => v
      | Option.none => emptyObj
    | _ => emptyObj
  | .failure => emptyObj

/-- The response a raised error carries (`e.__dict__` includes the
response object, whose status code, body and headers are thereby exposed
to the caller). -/
def ReqError.response : ReqError → Option Response
  | .notFound r => some r
  | .unauthorized r => some r
  | .httpError r => some r
  | .generic r => some r
  | .jsonDecodeError r => some r
  | .connectionError => Option.none
  | .valueError _ => Option.none

theorem natToCharsAux_congr (n : Nat) : ∀ f1 f2 acc, n < f1 → n < f2 →
    natToCharsAux f1 n acc = natToCharsAux f2 n acc := by
  induction n using Nat.strong_induction_on with
  | _ n ih =>
    intro f1 f2 acc h1 h2
    cases f1 with
    | zero => omega
    | succ g1 =>
      cases f2 with
      | zero => omega
      | succ g2 =>
        by_cases h : n < 10
        · simp [natToCharsAux, h]
        · simp only [natToCharsAux, if_neg h]
          exact ih (n / 10) (by omega) g1 g2 _ (by omega) (by omega)

theorem natToCharsAux_acc (f : Nat) : ∀ n acc,
    natToCharsAux f n acc = natToCharsAux f n [] ++ acc := by
  induction f with
  | zero => intro n acc; simp [natToCharsAux]
  | succ g ih =>
    intro n acc
    by_cases h : n < 10
    · simp [natToCharsAux, h]
    · simp only [natToCharsAux, if_neg h]
      rw [ih, ih (n / 10) [Char.ofNat (48 + n % 10)]]
      simp

theorem natToChars_lt (n : Nat) (h : n < 10) :
    natToChars n = [Char.ofNat (48 + n)] := by
  simp [natToChars, natToCharsAux, h]

theorem natToChars_ge (n : Nat) (h : 10 ≤ n) :
    natToChars n = natToChars (n / 10) ++ [Char.ofNat (48 + n % 10)] := by
  show natToCharsAux (n + 1) n [] = _
  simp only [natToCharsAux, if_neg (by omega : ¬ n < 10)]
  rw [natToCharsAux_acc,
    natToCharsAux_congr (n / 10) n (n / 10 + 1) [] (by omega) (by omega)]
  rfl

theorem isDigit_ofNat (k : Nat) (h : k < 10) :
    (Char.ofNat (48 + k)).isDigit = true := by
  interval_cases k <;> decide

theorem toNat_ofNat_digit (k : Nat) (h : k < 10) :
    (Char.ofNat (48 + k)).toNat - 48 = k := by
  interval_cases k <;> decide

theorem readNatAux_natToChars (n : Nat) : ∀ acc rest,
    readNatAux (natToChars n ++ rest) acc =
      readNatAux rest (acc * 10 ^ (natToChars n).length + n) := by
  induction n using Nat.strong_induction_on with
  | _ n ih =>
    intro acc rest
    by_cases h : n < 10
    · rw [natToChars_lt n h]
      show readNatAux (Char.ofNat (48 + n) :: rest) acc = _
      simp only [readNatAux]
      rw [if_pos (isDigit_ofNat n h), toNat_ofNat_digit n h]
      congr 1
      simp
      omega
    · rw [natToChars_ge n (by omega), List.append_assoc, ih (n / 10) (by omega)]
      show readNatAux (Char.ofNat (48 + n % 10) :: rest) _ = _
      simp only [readNatAux]
      rw [if_pos (isDigit_ofNat _ (by omega)), toNat_ofNat_digit _ (by omega)]
      congr 1
      simp only [List.length_append, List.length_cons, List.length_nil]
      rw [pow_succ, ← Nat.mul_assoc]
      generalize acc * 10 ^ (natToChars (n / 10)).length = X
      omega

theorem readNat_space (n : Nat) (rest : List Char) :
    readNatAux (natToChars n ++ ' ' :: rest) 0 = (n, ' ' :: rest) := by
  rw [readNatAux_natToChars]
  rw [readNatAux, if_neg (by decide)]
  simp

theorem readNat_end (n : Nat) : readNatAux (natToChars n) 0 = (n, []) := by
  have h := readNatAux_natToChars n 0 []
  rw [List.append_nil] at h
  simpa [readNatAux] using h

theorem dropWhile_wdAbbr : ∀ (i : Nat) (rest : List Char),
    List.dropWhile (fun c => c != ',') (weekdayAbbrChars i ++ ',' :: rest)
      = ',' :: rest
  | 0, rest => by simp +decide [weekdayAbbrChars, List.dropWhile_cons]
  | 1, rest => by simp +decide [weekdayAbbrChars, List.dropWhile_cons]
  | 2, rest => by simp +decide [weekdayAbbrChars, List.dropWhile_cons]
  | 3, rest => by simp +decide [weekdayAbbrChars, List.dropWhile_cons]
  | 4, rest => by simp +decide [weekdayAbbrChars, List.dropWhile_cons]
  | 5, rest => by simp +decide [weekdayAbbrChars, List.dropWhile_cons]
  | 6, rest => by simp +decide [weekdayAbbrChars, List.dropWhile_cons]
  | n + 7, rest => by
    show List.dropWhile (fun c => c != ',') (([] : List Char) ++ ',' :: rest)
      = ',' :: rest
    simp +decide [List.dropWhile_cons]

theorem expectChar_cons_self (c : Char) (rest : List Char) :
    expectChar c (c :: rest) = some rest := by
  simp [expectChar]

theorem readMonth_monthAbbr (m : Nat) (h1 : 1 ≤ m) (h2 : m ≤ 12) (rest : List Char) :
    readMonth (monthAbbrChars m ++ rest) = some (m, rest) := by
  interval_cases m <;> rfl

theorem parseWire_format (y m d : Nat) (h : validDate y m d = true) :
    parseWireChars (formatDateChars ⟨y, m, d⟩) = some ⟨y, m, d⟩ := by
  have hm : 1 ≤ m ∧ m ≤ 12 := by
    simp only [validDate, Bool.and_eq_true, decide_eq_true_eq] at h
    omega
  obtain ⟨hm1, hm2⟩ := hm
  unfold parseWireChars formatDateChars
  dsimp only
  rw [dropWhile_wdAbbr, expectChar_cons_self, Option.some_bind,
    expectChar_cons_self, Option.some_bind, readNat_space]
  dsimp only
  rw [expectChar_cons_self, Option.some_bind, readMonth_monthAbbr m hm1 hm2,
    Option.some_bind]
  dsimp only
  rw [expectChar_cons_self, Option.some_bind, readNat_end]
  simp [h]

/-- C7: `_format_date` round-trips — for every valid calendar date in the
range 1900-01-01 to 2100-12-31, rendering it to the wire format
`<abbreviated weekday>, <day-of-month> <abbreviated month> <4-digit year>`
(day without leading zero) and re-parsing the resulting string yields the
same calendar date. -/
theorem c7_format_date_round_trip (y m d : Nat) (h : validDate y m d = true)
    (hy1 : 1900 ≤ y) (hy2 : y ≤ 2100) :
    (_format_date (PyValue.date ⟨y, m, d⟩)).bind
      (fun s => _parse_date (PyValue.str s)) = some ⟨y, m, d⟩ := by
  show (some (String.mk (formatDateChars ⟨y, m, d⟩))).bind
    (fun s => _parse_date (PyValue.str s)) = some ⟨y, m, d⟩
  rw [Option.some_bind]
  show dateutilParse (String.mk (formatDateChars ⟨y, m, d⟩)) = some ⟨y, m, d⟩
  have hmem : (',' : Char) ∈ (String.mk (formatDateChars ⟨y, m, d⟩)).toList := by
    show (',' : Char) ∈ formatDateChars ⟨y, m, d⟩
    unfold formatDateChars
    simp
  rw [dateutilParse, if_pos hmem]
  exact parseWire_format y m d h

/-- Witness for C7 at the concrete date 2024-01-15. -/
theorem c7_format_date_round_trip_witness :
    (_format_date (PyValue.date ⟨2024, 1, 15⟩)).bind
      (fun s => _parse_date (PyValue.str s)) = some ⟨2024, 1, 15⟩ :=
  c7_format_date_round_trip 2024 1 15 (by decide) (by decide) (by decide)

/-- C8: `get_day` substitutes the ordinal day of the year (1..366) and the
calendar year into the path instead of a formatted date string; in
particular `get_day "2024-01-15"` issues `GET /daily/15/2024`. -/
theorem c8_get_day_day_of_year (dt : Date)
    (h : validDate dt.year dt.month dt.day = true) :
    get_day (PyValue.str "2024-01-15")
        = some ⟨"GET", "/daily/15/2024", Option.none⟩ ∧
    get_day (PyValue.date dt) =
      some ⟨"GET", "/daily/" ++ String.mk (natToChars (dayOfYear dt)) ++ "/" ++
        String.mk (natToChars dt.year), Option.none⟩ ∧
    1 ≤ dayOfYear dt ∧ dayOfYear dt ≤ 366 := by
  obtain ⟨yy, mm, dd⟩ := dt
  dsimp only at h
  refine ⟨by decide, rfl, ?_, ?_⟩
  · have hd : 1 ≤ dd := by
      simp only [validDate, Bool.and_eq_true, decide_eq_true_eq] at h
      omega
    unfold dayOfYear
    dsimp only
    omega
  · have hb : 1 ≤ mm ∧ mm ≤ 12 ∧ dd ≤ daysInMonth yy mm := by
      simp only [validDate, Bool.and_eq_true, decide_eq_true_eq] at h
      omega
    obtain ⟨h1, h2, h4⟩ := hb
    unfold dayOfYear
    dsimp only
    interval_cases mm <;>
      (cases hL : isLeap yy <;> (simp [cumDaysBefore, daysInMonth, hL] at h4 ⊢; omega))

/-- Witness for C8 at the concrete date 2024-12-31 (day of year 366). -/
theorem c8_get_day_day_of_year_witness :
    get_day (PyValue.str "2024-01-15")
        = some ⟨"GET", "/daily/15/2024", Option.none⟩ ∧
    get_day (PyValue.date ⟨2024, 12, 31⟩) =
      some ⟨"GET", "/daily/" ++ String.mk (natToChars (dayOfYear ⟨2024, 12, 31⟩)) ++ "/" ++
        String.mk (natToChars (2024 : Nat)), Option.none⟩ ∧
    1 ≤ dayOfYear ⟨2024, 12, 31⟩ ∧ dayOfYear ⟨2024, 12, 31⟩ ≤ 366 :=
  c8_get_day_day_of_year ⟨2024, 12, 31⟩ (by decide)

/-- C6 fails on the code: when both a client filter and `updated_since`
are supplied, `get_projects` and `get_tasks` join the second filter with
a second `?` instead of `&`, so the path carries two `?` characters and
is not a valid query string.  This theorem evaluates both methods at the
failing input. -/
theorem c6_both_filters_two_question_marks :
    get_projects (some 7) (some (.date ⟨2024, 1, 15⟩)) =
      some ⟨"GET", "/projects?updated_since=Mon, 15 Jan 2024?client=7",
        Option.none⟩ ∧
    get_tasks (some 7) (some (.date ⟨2024, 1, 15⟩)) =
      some ⟨"GET", "/tasks?updated_since=Mon, 15 Jan 2024?client=7",
        Option.none⟩ ∧
    List.count '?' "/projects?updated_since=Mon, 15 Jan 2024?client=7".toList
      = 2 ∧
    List.count '?' "/tasks?updated_since=Mon, 15 Jan 2024?client=7".toList
      = 2 :=
  ⟨by decide, by decide, by decide, by decide⟩

theorem request_503_retry (st : ClientState) (k : Nat) (m p : String)
    (b : Option PyDict) (r : Response) (rest : List Response) (n : Int)
    (hs : r.status = 503)
    (hn : pyIntOfString (headerGetD r.headers "Retry-After" "15") = some n)
    (hk : st.retries.getD 0 + 1 = k) (hr : k ≤ 5) :
    _request st m p b (r :: rest) =
      ⟨(_request ⟨some k⟩ m p b rest).state,
       (_request ⟨some k⟩ m p b rest).attempts + 1,
       n :: (_request ⟨some k⟩ m p b rest).sleeps,
       (_request ⟨some k⟩ m p b rest).result⟩ := by
  obtain ⟨s, hdrs, jj, tt⟩ := r
  dsimp only at hs hn ⊢
  subst hs
  subst hk
  simp [_request, hn, show ¬ (st.retries.getD 0 + 1 > 5) from by omega]

theorem request_503_exhaust (st : ClientState) (k : Nat) (m p : String)
    (b : Option PyDict) (r : Response) (rest : List Response) (n : Int)
    (hs : r.status = 503)
    (hn : pyIntOfString (headerGetD r.headers "Retry-After" "15") = some n)
    (hk : st.retries.getD 0 + 1 = k) (hr : k > 5) :
    _request st m p b (r :: rest) =
      ⟨⟨some k⟩, 1, [], .error (.httpError r)⟩ := by
  obtain ⟨s, hdrs, jj, tt⟩ := r
  dsimp only at hs hn ⊢
  subst hs
  subst hk
  simp [_request, hn, show st.retries.getD 0 + 1 > 5 from hr]

theorem request_503_badRetryAfter (st : ClientState) (m p : String)
    (b : Option PyDict) (r : Response) (rest : List Response)
    (hs : r.status = 503)
    (hn : pyIntOfString (headerGetD r.headers "Retry-After" "15") = Option.none) :
    _request st m p b (r :: rest) =
      ⟨st, 1, [], .error (.valueError (headerGetD r.headers "Retry-After" "15"))⟩ := by
  obtain ⟨s, hdrs, jj, tt⟩ := r
  dsimp only at hs hn ⊢
  subst hs
  simp [_request, hn]

theorem request_success (st : ClientState) (m p : String) (b : Option PyDict)
    (r : Response) (rest : List Response)
    (h1 : 200 ≤ r.status) (h2 : r.status ≤ 299) :
    _request st m p b (r :: rest) =
      ⟨st, 1, [],
        if methodMentionsDELETE m then .ok (.raw r)
        else
          match r.json with
          | some j => .ok (.json j)
          | Option.none => .error (.jsonDecodeError r)⟩ := by
  obtain ⟨s, hdrs, jj, tt⟩ := r
  dsimp only at h1 h2 ⊢
  cases hD : methodMentionsDELETE m <;>
    (simp [_request, hD, show ¬ (400 ≤ s ∧ s ≤ 599) from by omega]
     try (cases jj <;> rfl))

theorem request_error_taxonomy (st : ClientState) (m p : String)
    (b : Option PyDict) (r : Response) (rest : List Response)
    (h4 : 400 ≤ r.status) (h5 : r.status ≤ 599) (hn : r.status ≠ 503) :
    _request st m p b (r :: rest) =
      ⟨st, 1, [],
        .error (if r.status = 404 then .notFound r
          else if r.status = 401 then .unauthorized r
          else .generic r)⟩ := by
  obtain ⟨s, hdrs, jj, tt⟩ := r
  dsimp only at h4 h5 hn ⊢
  by_cases h404 : s = 404
  · subst h404
    simp [_request]
  · by_cases h401 : s = 401
    · subst h401
      simp [_request]
    · simp [_request, h404, h401, hn, show 400 ≤ s ∧ s ≤ 599 from ⟨h4, h5⟩]

/-- C1: for a fresh client (no `_retries` attribute yet) whose logical
call receives 503 on every attempt, the attempt counter is incremented
on each 503 (final client state carries 6) and, once it exceeds 5, the
underlying `requests.HTTPError` is re-raised instead of retrying: the
call fails after exactly 5 retries, i.e. 6 total attempts, having slept
once per retry. -/
theorem c1_six_503s_fail_after_five_retries (m p : String) (b : Option PyDict)
    (r1 r2 r3 r4 r5 r6 : Response) (rest : List Response)
    (n1 n2 n3 n4 n5 n6 : Int)
    (hs1 : r1.status = 503)
    (hn1 : pyIntOfString (headerGetD r1.headers "Retry-After" "15") = some n1)
    (hs2 : r2.status = 503)
    (hn2 : pyIntOfString (headerGetD r2.headers "Retry-After" "15") = some n2)
    (hs3 : r3.status = 503)
    (hn3 : pyIntOfString (headerGetD r3.headers "Retry-After" "15") = some n3)
    (hs4 : r4.status = 503)
    (hn4 : pyIntOfString (headerGetD r4.headers "Retry-After" "15") = some n4)
    (hs5 : r5.status = 503)
    (hn5 : pyIntOfString (headerGetD r5.headers "Retry-After" "15") = some n5)
    (hs6 : r6.status = 503)
    (hn6 : pyIntOfString (headerGetD r6.headers "Retry-After" "15") = some n6) :
    _request ⟨Option.none⟩ m p b (r1 :: r2 :: r3 :: r4 :: r5 :: r6 :: rest) =
      ⟨⟨some 6⟩, 6, [n1, n2, n3, n4, n5], .error (.httpError r6)⟩ := by
  rw [request_503_retry ⟨Option.none⟩ 1 m p b r1 _ n1 hs1 hn1 (by decide) (by omega)]
  rw [request_503_retry ⟨some 1⟩ 2 m p b r2 _ n2 hs2 hn2 (by decide) (by omega)]
  rw [request_503_retry ⟨some 2⟩ 3 m p b r3 _ n3 hs3 hn3 (by decide) (by omega)]
  rw [request_503_retry ⟨some 3⟩ 4 m p b r4 _ n4 hs4 hn4 (by decide) (by omega)]
  rw [request_503_retry ⟨some 4⟩ 5 m p b r5 _ n5 hs5 hn5 (by decide) (by omega)]
  rw [request_503_exhaust ⟨some 5⟩ 6 m p b r6 _ n6 hs6 hn6 (by decide) (by omega)]

/-- Witness for C1: six plain 503 responses with no `Retry-After` header
(so each sleep uses the default 15). -/
theorem c1_six_503s_fail_after_five_retries_witness :
    _request ⟨Option.none⟩ "GET" "/projects" Option.none
      [⟨503, [], Option.none, ""⟩, ⟨503, [], Option.none, ""⟩,
       ⟨503, [], Option.none, ""⟩, ⟨503, [], Option.none, ""⟩,
       ⟨503, [], Option.none, ""⟩, ⟨503, [], Option.none, ""⟩] =
      ⟨⟨some 6⟩, 6, [15, 15, 15, 15, 15],
        .error (.httpError ⟨503, [], Option.none, ""⟩)⟩ :=
  c1_six_503s_fail_after_five_retries "GET" "/projects" Option.none
    _ _ _ _ _ _ [] 15 15 15 15 15 15
    rfl (by decide) rfl (by decide) rfl (by decide)
    rfl (by decide) rfl (by decide) rfl (by decide)

/-- C2 fails on the code: `_request` stores the retry counter in the
`_retries` attribute of the client instance and never resets it, so the
client-visible state after a completed call differs from the state
before it, and a later logical call does not get the fresh budget of 5
retries.  Concretely: a fresh client whose first call sees one 503 and
then a 200 succeeds but leaves `_retries == 1` behind; a second call on
the same client that sees only 503s then exhausts after 5 attempts (4
retries) instead of 6 attempts (5 retries). -/
theorem c2_retry_counter_persists_on_client :
    (_request ⟨Option.none⟩ "GET" "/daily" Option.none
        [⟨503, [], Option.none, ""⟩, ⟨200, [], some emptyObj, ""⟩]).state
      = ⟨some 1⟩ ∧
    (⟨some 1⟩ : ClientState) ≠ ⟨Option.none⟩ ∧
    (_request ⟨some 1⟩ "GET" "/daily" Option.none
        [⟨503, [], Option.none, ""⟩, ⟨503, [], Option.none, ""⟩,
         ⟨503, [], Option.none, ""⟩, ⟨503, [], Option.none, ""⟩,
         ⟨503, [], Option.none, ""⟩, ⟨503, [], Option.none, ""⟩]).attempts
      = 5 ∧
    (_request ⟨some 1⟩ "GET" "/daily" Option.none
        [⟨503, [], Option.none, ""⟩, ⟨503, [], Option.none, ""⟩,
         ⟨503, [], Option.none, ""⟩, ⟨503, [], Option.none, ""⟩,
         ⟨503, [], Option.none, ""⟩, ⟨503, [], Option.none, ""⟩]).result
      = .error (.httpError ⟨503, [], Option.none, ""⟩) :=
  ⟨rfl, by decide, rfl, rfl⟩

/-- C3 counterexample: a 503 whose `Retry-After` header is the
non-numeric string `soon` makes the call fail at once with the uncaught
`int()` `ValueError` — it does not fall back to the 15-second default
and does not retry (no sleep, a single attempt), even though a further
response was available. -/
theorem c3_nonnumeric_retry_after_fails_call :
    _request ⟨Option.none⟩ "GET" "/projects" Option.none
      [⟨503, [("Retry-After", "soon")], Option.none, ""⟩,
       ⟨200, [], some emptyObj, ""⟩] =
      ⟨⟨Option.none⟩, 1, [], .error (.valueError "soon")⟩ := rfl

/-- C3 amended: on a 503 within the retry budget, the retry delay is the
integer value of the `Retry-After` header; the header defaults to the
string `15` (hence a 15-second delay) only when it is absent; a
non-numeric value makes `int()` raise an uncaught `ValueError`, so the
call fails instead of retrying. -/
theorem c3_retry_after_delay (st : ClientState) (k : Nat) (m p : String)
    (b : Option PyDict) (r : Response) (rest : List Response)
    (hs : r.status = 503) (hk : st.retries.getD 0 + 1 = k) (hr : k ≤ 5) :
    _request st m p b (r :: rest) =
      (match pyIntOfString (headerGetD r.headers "Retry-After" "15") with
       | some n =>
         ⟨(_request ⟨some k⟩ m p b rest).state,
          (_request ⟨some k⟩ m p b rest).attempts + 1,
          n :: (_request ⟨some k⟩ m p b rest).sleeps,
          (_request ⟨some k⟩ m p b rest).result⟩
       | Option.none =>
         ⟨st, 1, [],
          .error (.valueError (headerGetD r.headers "Retry-After" "15"))⟩) ∧
    (r.headers.find? (fun q => lowerEq q.1 "Retry-After") = Option.none →
      headerGetD r.headers "Retry-After" "15" = "15") ∧
    pyIntOfString "15" = some 15 := by
  refine ⟨?_, ?_, by decide⟩
  · cases hn : pyIntOfString (headerGetD r.headers "Retry-After" "15") with
    | none => exact request_503_badRetryAfter st m p b r rest hs hn
    | some n => exact request_503_retry st k m p b r rest n hs hn hk hr
  · intro hf
    unfold headerGetD
    rw [hf]

/-- Witness for C3's amended statement: a 503 with `Retry-After: 7`
retries after sleeping 7 seconds, and a 503 without the header sleeps
the default 15. -/
theorem c3_retry_after_delay_witness :
    _request ⟨Option.none⟩ "GET" "/" Option.none
      [⟨503, [("Retry-After", "7")], Option.none, ""⟩,
       ⟨200, [], some emptyObj, ""⟩] =
      ⟨⟨some 1⟩, 2, [7], .ok (.json emptyObj)⟩ ∧
    _request ⟨Option.none⟩ "GET" "/" Option.none
      [⟨503, [], Option.none, ""⟩, ⟨200, [], some emptyObj, ""⟩] =
      ⟨⟨some 1⟩, 2, [15], .ok (.json emptyObj)⟩ := by
  constructor
  · have h := (c3_retry_after_delay ⟨Option.none⟩ 1 "GET" "/" Option.none
      ⟨503, [("Retry-After", "7")], Option.none, ""⟩
      [⟨200, [], some emptyObj, ""⟩] rfl rfl (by omega)).1
    rw [h]
    rfl
  · have h := (c3_retry_after_delay ⟨Option.none⟩ 1 "GET" "/" Option.none
      ⟨503, [], Option.none, ""⟩
      [⟨200, [], some emptyObj, ""⟩] rfl rfl (by omega)).1
    rw [h]
    rfl

/-- C4: on a success (2xx) response, a method that does not contain
`DELETE` parses the body as JSON and returns it, failing with the JSON
decode error when the body is not valid JSON; a DELETE request returns
the raw response object without touching the body.  The trailing
conjuncts relate the source's substring test `'DELETE' not in method` to
the four methods the facade issues. -/
theorem c4_success_json_or_raw (st : ClientState) (m p : String)
    (b : Option PyDict) (r : Response) (rest : List Response)
    (h1 : 200 ≤ r.status) (h2 : r.status ≤ 299) :
    _request st m p b (r :: rest) =
      ⟨st, 1, [],
        if methodMentionsDELETE m then .ok (.raw r)
        else
          match r.json with
          | some j => .ok (.json j)
          | Option.none => .error (.jsonDecodeError r)⟩ ∧
    methodMentionsDELETE "GET" = false ∧
    methodMentionsDELETE "POST" = false ∧
    methodMentionsDELETE "PUT" = false ∧
    methodMentionsDELETE "DELETE" = true :=
  ⟨request_success st m p b r rest h1 h2, by decide, by decide, by decide,
    by decide⟩

/-- Witness for C4: a 200 with a JSON body is parsed for GET and
returned raw for DELETE; a 200 with an unparseable body fails for GET. -/
theorem c4_success_json_or_raw_witness :
    _request ⟨Option.none⟩ "GET" "/x" Option.none
      [⟨200, [], some emptyObj, ""⟩] =
      ⟨⟨Option.none⟩, 1, [], .ok (.json emptyObj)⟩ ∧
    _request ⟨Option.none⟩ "DELETE" "/x" Option.none
      [⟨200, [], Option.none, "not json"⟩] =
      ⟨⟨Option.none⟩, 1, [], .ok (.raw ⟨200, [], Option.none, "not json"⟩)⟩ ∧
    _request ⟨Option.none⟩ "GET" "/x" Option.none
      [⟨200, [], Option.none, "not json"⟩] =
      ⟨⟨Option.none⟩, 1, [],
        .error (.jsonDecodeError ⟨200, [], Option.none, "not json"⟩)⟩ := by
  refine ⟨?_, ?_, ?_⟩
  · rw [(c4_success_json_or_raw ⟨Option.none⟩ "GET" "/x" Option.none
      ⟨200, [], some emptyObj, ""⟩ [] (by decide) (by decide)).1]
    rfl
  · rw [(c4_success_json_or_raw ⟨Option.none⟩ "DELETE" "/x" Option.none
      ⟨200, [], Option.none, "not json"⟩ [] (by decide) (by decide)).1]
    rfl
  · rw [(c4_success_json_or_raw ⟨Option.none⟩ "GET" "/x" Option.none
      ⟨200, [], Option.none, "not json"⟩ [] (by decide) (by decide)).1]
    rfl

/-- C5: a non-503 error status raises the taxonomy error — `NotFound`
for 404, `Unauthorized` for 401, the generic `Error` for any other
4xx/5xx — and the raised error carries the whole original response, so
its status code, body and headers travel with it
(`ReqError.response`). -/
theorem c5_error_taxonomy (st : ClientState) (m p : String)
    (b : Option PyDict) (r : Response) (rest : List Response)
    (h4 : 400 ≤ r.status) (h5 : r.status ≤ 599) (hn : r.status ≠ 503) :
    _request st m p b (r :: rest) =
      ⟨st, 1, [],
        .error (if r.status = 404 then .notFound r
          else if r.status = 401 then .unauthorized r
          else .generic r)⟩ ∧
    ReqError.response (.notFound r) = some r ∧
    ReqError.response (.unauthorized r) = some r ∧
    ReqError.response (.generic r) = some r :=
  ⟨request_error_taxonomy st m p b r rest h4 h5 hn, rfl, rfl, rfl⟩

/-- Witness for C5 at statuses 404, 401 and 500. -/
theorem c5_error_taxonomy_witness :
    _request ⟨Option.none⟩ "GET" "/x" Option.none
      [⟨404, [], Option.none, "missing"⟩] =
      ⟨⟨Option.none⟩, 1, [],
        .error (.notFound ⟨404, [], Option.none, "missing"⟩)⟩ ∧
    _request ⟨Option.none⟩ "GET" "/x" Option.none
      [⟨401, [], Option.none, "denied"⟩] =
      ⟨⟨Option.none⟩, 1, [],
        .error (.unauthorized ⟨401, [], Option.none, "denied"⟩)⟩ ∧
    _request ⟨Option.none⟩ "GET" "/x" Option.none
      [⟨500, [], Option.none, "boom"⟩] =
      ⟨⟨Option.none⟩, 1, [],
        .error (.generic ⟨500, [], Option.none, "boom"⟩)⟩ := by
  refine ⟨?_, ?_, ?_⟩
  · rw [(c5_error_taxonomy ⟨Option.none⟩ "GET" "/x" Option.none
      ⟨404, [], Option.none, "missing"⟩ [] (by decide) (by decide) (by decide)).1]
    rfl
  · rw [(c5_error_taxonomy ⟨Option.none⟩ "GET" "/x" Option.none
      ⟨401, [], Option.none, "denied"⟩ [] (by decide) (by decide) (by decide)).1]
    rfl
  · rw [(c5_error_taxonomy ⟨Option.none⟩ "GET" "/x" Option.none
      ⟨500, [], Option.none, "boom"⟩ [] (by decide) (by decide) (by decide)).1]
    rfl

/-- C9: `status()` is a total function of the transport outcome — it
never raises — and for every outcome it returns exactly what the
specification describes (`statusSpec`): the `status` field of the parsed
JSON object when the request, the JSON parse and the field lookup all
succeed, and the empty result `{}` in every other case (network error,
unparseable body, non-object body, missing field). -/
theorem c9_status_never_raises (o : GetOutcome) : status o = statusSpec o := by
  cases o with
  | failure => rfl
  | response r =>
    cases hj : r.json with
    | none => simp [status, statusSpec, hj]
    | some j =>
      cases j with
      | obj fields =>
        cases hl : List.lookup "status" fields with
        | none => simp [status, statusSpec, hj, hl]
        | some v => simp [status, statusSpec, hj, hl]
      | null => simp [status, statusSpec, hj]
      | bool b => simp [status, statusSpec, hj]
      | num n => simp [status, statusSpec, hj]
      | str s => simp [status, statusSpec, hj]
      | arr xs => simp [status, statusSpec, hj]

theorem setKey_lookup_ne (data : PyDict) (k k2 : String) (v : PyValue)
    (h : k2 ≠ k) :
    List.lookup k2 (setKey data k v) = List.lookup k2 data := by
  unfold setKey
  by_cases hp : (List.lookup k data).isSome
  · rw [if_pos hp]
    clear hp
    induction data with
    | nil => rfl
    | cons q qs ih =>
      obtain ⟨qk, qv⟩ := q
      by_cases hq : qk = k
      · subst hq
        simp only [List.map_cons]
        rw [if_pos (by simp)]
        rw [List.lookup_cons, List.lookup_cons]
        rw [beq_false_of_ne h]
        exact ih
      · simp only [List.map_cons]
        rw [if_neg (by simpa using hq)]
        rw [List.lookup_cons, List.lookup_cons]
        cases hq2 : (k2 == qk)
        · exact ih
        · rfl
  · rw [if_neg hp]
    clear hp
    induction data with
    | nil => simp [List.lookup_cons, beq_false_of_ne h]
    | cons q qs ih =>
      obtain ⟨qk, qv⟩ := q
      simp only [List.cons_append]
      rw [List.lookup_cons, List.lookup_cons]
      cases hq2 : (k2 == qk)
      · exact ih
      · rfl

/-- C10: `add` mutates the caller's mapping in place — when the mapping
holds a truthy `spent_at` entry that parses, that entry (and only that
entry: every other key still looks up to its old value) is overwritten
with its wire-format date string, and the POST body is that same mutated
mapping; a truthy unparseable entry raises before any POST; a mapping
without a truthy `spent_at` entry (absent or falsy) is passed on
unmodified. -/
theorem c10_add_formats_spent_at_in_place (data : PyDict) :
    (∀ v s, List.lookup "spent_at" data = some v → truthy v = true →
      _format_date v = some s →
      Harvest.add data = .ok (setKey data "spent_at" (PyValue.str s),
        ⟨"POST", "/daily/add", some (setKey data "spent_at" (PyValue.str s))⟩)) ∧
    (∀ v, List.lookup "spent_at" data = some v → truthy v = true →
      _format_date v = Option.none →
      Harvest.add data = .error PyErr.invalidDate) ∧
    (∀ v, List.lookup "spent_at" data = some v → truthy v = false →
      Harvest.add data = .ok (data, ⟨"POST", "/daily/add", some data⟩)) ∧
    (List.lookup "spent_at" data = Option.none →
      Harvest.add data = .ok (data, ⟨"POST", "/daily/add", some data⟩)) ∧
    (∀ v2 k, k ≠ "spent_at" →
      List.lookup k (setKey data "spent_at" v2) = List.lookup k data) := by
  refine ⟨?_, ?_, ?_, ?_, ?_⟩
  · intro v s hl ht hf
    simp only [Harvest.add, _format_dates, hl, ht, hf, if_true]
  · intro v hl ht hf
    simp only [Harvest.add, _format_dates, hl, ht, hf, if_true]
  · intro v hl ht
    simp only [Harvest.add, _format_dates, hl, ht, Bool.false_eq_true, if_false]
  · intro hl
    simp only [Harvest.add, _format_dates, hl]
  · intro v2 k hk
    exact setKey_lookup_ne data "spent_at" k v2 hk

/-- Witness for C10: a mapping holding a date `spent_at` and one other
key; `add` rewrites `spent_at` to the wire format in place, posts the
mutated mapping, and the other key is untouched. -/
theorem c10_add_formats_spent_at_in_place_witness :
    Harvest.add [("spent_at", PyValue.date ⟨2024, 1, 15⟩),
        ("notes", PyValue.str "x")] =
      .ok ([("spent_at", PyValue.str "Mon, 15 Jan 2024"),
            ("notes", PyValue.str "x")],
        ⟨"POST", "/daily/add",
          some [("spent_at", PyValue.str "Mon, 15 Jan 2024"),
                ("notes", PyValue.str "x")]⟩) ∧
    List.lookup "notes"
        (setKey [("spent_at", PyValue.date ⟨2024, 1, 15⟩),
          ("notes", PyValue.str "x")] "spent_at"
          (PyValue.str "Mon, 15 Jan 2024")) =
      List.lookup "notes" [("spent_at", PyValue.date ⟨2024, 1, 15⟩),
        ("notes", PyValue.str "x")] := by
  have h := c10_add_formats_spent_at_in_place
    [("spent_at", PyValue.date ⟨2024, 1, 15⟩), ("notes", PyValue.str "x")]
  constructor
  · have h1 := h.1 (PyValue.date ⟨2024, 1, 15⟩) "Mon, 15 Jan 2024"
      (by decide) (by decide) (by decide)
    rw [h1]
    rfl
  · exact h.2.2.2.2 (PyValue.str "Mon, 15 Jan 2024") "notes" (by decide)
